import Mathlib

/-!
Verification development for the membase chain-client layer
(`membase/chain/chain.py` and `membase/chain/beeper.py`).

Addresses are modelled as their byte sequences (`List Nat`, each entry a
byte); endpoints and tokens at the routing level are modelled as the
canonical (checksummed) strings the code compares; on-chain oracles
(liveness probes, pool registry lookups, receipt status, replay calls)
are explicit function parameters.

The file is organized as definitions first, then theorems.
-/

/-! ## Definitions: path encoding (`BeeperClient._encode_path`) -/

/-- `int.to_bytes(f, 3, "big")`: the three big-endian bytes of a fee. -/
def fee3 (f : Nat) : List Nat :=
  [f / 65536 % 256, f / 256 % 256, f % 256]

/-- The encoding loop of `_encode_path`: for each `index, token`, append the
token bytes, and append `fees[index]` as 3 bytes unless the token equals the
final token of the list (`token != tokens[-1]` in the source compares by
value, not by position). -/
def encodeFrom (lastTok : List Nat) (fees : List Nat) : Nat → List (List Nat) → List Nat
  | _, [] => []
  | i, tok :: rest =>
      tok ++ (if tok = lastTok then [] else fee3 (fees.getD i 0))
        ++ encodeFrom lastTok fees (i + 1) rest

/-- Body of `_encode_path` after the arity assert and optional reversal. -/
def encodeBody (tokens : List (List Nat)) (fees : List Nat) : List Nat :=
  encodeFrom (tokens.getLastD []) fees 0 tokens

/-- `_encode_path`, result only: `assert len(fees) == len(tokens) - 1`
(Python integer arithmetic, hence the `Int` cast), reverse both lists when
`exact_output`, then run the encoding loop. `none` models the
`AssertionError`. -/
def encodePath (tokens : List (List Nat)) (fees : List Nat) (exactOutput : Bool) :
    Option (List Nat) :=
  if (fees.length : Int) = (tokens.length : Int) - 1 then
    some (encodeBody (if exactOutput then tokens.reverse else tokens)
      (if exactOutput then fees.reverse else fees))
  else none

/-- `_encode_path` with the caller-visible final state of the two list
arguments (`list.reverse()` mutates in place): returns
(result, tokens after the call, fees after the call). -/
def encodePathSt (tokens : List (List Nat)) (fees : List Nat) (exactOutput : Bool) :
    Option (List Nat) × List (List Nat) × List Nat :=
  if (fees.length : Int) = (tokens.length : Int) - 1 then
    let tks := if exactOutput then tokens.reverse else tokens
    let fs := if exactOutput then fees.reverse else fees
    (some (encodeBody tks fs), tks, fs)
  else (none, tokens, fees)

/-- The layout the spec mandates: for each of the first `N` tokens in order,
its 20 address bytes followed by its own fee as 3 big-endian bytes, then the
final token's address bytes with no trailing fee. -/
def specEncodePath (tokens : List (List Nat)) (fees : List Nat) : List Nat :=
  ((tokens.dropLast.zip fees).map (fun p => p.1 ++ fee3 p.2)).flatten ++ tokens.getLastD []

/-- 20-byte test address A. -/
def addrA : List Nat := List.replicate 20 1

/-- 20-byte test address B. -/
def addrB : List Nat := List.replicate 20 2

/-! ## Definitions: endpoint pool and transaction lifecycle (`Client`) -/

/-- Connection state of one client: the prioritized endpoint list
(`self.rpc_list`), the currently selected endpoint (`self.current_rpc`),
and the endpoint the active `Web3` handle is bound to (`self.w3`,
`none` before the first successful connection). -/
structure RpcState where
  rpcList : List String
  currentRpc : String
  w3 : Option String
deriving DecidableEq, Repr

/-- Whether the active handle answers `is_connected()`; a missing handle
answers false. `alive` is the probe oracle. -/
def connAlive (alive : String → Bool) : Option String → Bool
  | some c => alive c
  | none => false

/-- The failover loop of `_check_and_switch_rpc`: walk `rpc_list` in order,
skip the entry equal to `current_rpc`, and return the first endpoint whose
probe succeeds. -/
def tryConnect (alive : String → Bool) (current : String) : List String → Option String
  | [] => none
  | r :: rs =>
      if r = current then tryConnect alive current rs
      else if alive r then some r
      else tryConnect alive current rs

/-- `_check_and_switch_rpc`: return unchanged if the current handle probes
healthy; otherwise install the first healthy non-current endpoint, and on
exhaustion return silently with the state unchanged. -/
def checkAndSwitchRpc (alive : String → Bool) (st : RpcState) : RpcState :=
  if connAlive alive st.w3 then st
  else
    match tryConnect alive st.currentRpc st.rpcList with
    | some r => { st with currentRpc := r, w3 := some r }
    | none => st

/-- Probe oracle for the concrete witnesses: only endpoint "b" is up. -/
def aliveOnlyB : String → Bool := fun s => s == "b"

/-- Probe oracle for the all-down witness: every endpoint is down. -/
def aliveNone : String → Bool := fun _ => false

/-- Probe oracle under which every endpoint is up. -/
def aliveAll : String → Bool := fun _ => true

/-- Concrete witness state: pool [a, b, c], currently on the failing "a". -/
def rpcStW : RpcState := ⟨["a", "b", "c"], "a", some "a"⟩

/-- Outcome of `_build_and_send_tx`. -/
inductive SendOutcome where
  | noRpc
  | revertRaised (reason : String)
  | failedSilent
  | ok (txHash : String)
deriving DecidableEq, Repr

/-- `_display_cause`: replay the transaction's call data with `eth.call`
against `tx.blockNumber - 1`; `ethCall b = some reason` models the replay
raising at block `b`, `none` models it returning normally. -/
def displayCause (txBlock : Nat) (ethCall : Nat → Option String) : Option String :=
  ethCall (txBlock - 1)

/-- `_build_and_send_tx`: run the connection check-and-switch, raise
"No available RPC connection" if the (possibly new) handle still fails the
probe, otherwise build/sign/broadcast; on a status-0 receipt run
`_display_cause`, which re-raises the replay's exception when there is one
and otherwise falls through returning nothing; on a status-1 receipt return
"0x" prepended to the hash digits. -/
def buildAndSendTx (alive : String → Bool) (st : RpcState) (status0 : Bool)
    (txBlock : Nat) (ethCall : Nat → Option String) (txHash : String) :
    SendOutcome × RpcState :=
  let st1 := checkAndSwitchRpc alive st
  if connAlive alive st1.w3 = false then (SendOutcome.noRpc, st1)
  else if status0 then
    match displayCause txBlock ethCall with
    | some reason => (SendOutcome.revertRaised reason, st1)
    | none => (SendOutcome.failedSilent, st1)
  else (SendOutcome.ok ("0x" ++ txHash), st1)

/-- Whether an outcome is a revert result carrying a non-empty reason. -/
def isRevertWithReason : SendOutcome → Bool
  | SendOutcome.revertRaised r => !r.isEmpty
  | _ => false

/-! ## Definitions: endpoint pool initialization (`Client.__init__`) -/

/-- Whether `pat` is an initial segment of `s`. -/
def startsWithChars : List Char → List Char → Bool
  | [], _ => true
  | _ :: _, [] => false
  | p :: ps, c :: cs => p == c && startsWithChars ps cs

/-- Python's `pat in s` substring test on character lists. -/
def containsChars (pat : List Char) : List Char → Bool
  | [] => startsWithChars pat []
  | c :: cs => startsWithChars pat (c :: cs) || containsChars pat cs

/-- `ep.lower()` as a character list. -/
def lowerChars (s : String) : List Char := s.toList.map Char.toLower

/-- `Client.BSC_TESTNET_RPC`. -/
def bscTestnetRpc : List String := [
  "https://data-seed-prebsc-1-s1.binance.org:8545",
  "https://data-seed-prebsc-1-s2.binance.org:8545",
  "https://data-seed-prebsc-1-s3.binance.org:8545",
  "https://data-seed-prebsc-2-s1.binance.org:8545",
  "https://data-seed-prebsc-2-s2.binance.org:8545",
  "https://data-seed-prebsc-2-s3.binance.org:8545",
  "https://bsc-testnet.drpc.org",
  "https://bsc-testnet.public.blastapi.io",
  "https://bsc-testnet-rpc.publicnode.com",
  "https://api.zan.top/bsc-testnet"]

/-- `Client.BSC_MAINNET_RPC`. -/
def bscMainnetRpc : List String := [
  "https://bsc-dataseed1.binance.org",
  "https://bsc-dataseed2.binance.org",
  "https://bsc-dataseed3.binance.org",
  "https://bsc-dataseed4.binance.org"]

/-- `Client.ETH_MAINNET_RPC`. -/
def ethMainnetRpc : List String := []

/-- Pool selection in `Client.__init__`: substring checks on the lowercased
endpoint pick the BSC testnet, BSC mainnet or ETH list. -/
def selectRpcList (ep : String) : List String :=
  if containsChars "binance".toList (lowerChars ep)
      || containsChars "bsc".toList (lowerChars ep) then
    if containsChars "testnet".toList (lowerChars ep)
        || containsChars "test".toList (lowerChars ep) then
      bscTestnetRpc
    else bscMainnetRpc
  else ethMainnetRpc

/-- The pool after `__init__`: the user endpoint is inserted at position 0
only when it is absent from the selected list. -/
def initRpcList (ep : String) : List String :=
  if ep ∈ selectRpcList ep then selectRpcList ep else ep :: selectRpcList ep

/-! ## Definitions: trade router (`BeeperClient.make_trade` and helpers) -/

/-- The fee-tier priority list the swap helpers probe, in source order. -/
def pancakeFees : List Nat := [10000, 2500, 500, 100]

/-- The pool-probe loop body: walk the tier list and return
`(pool address, tier)` for the first tier whose registry lookup
(`get_token_pool`, the oracle `getPool`) is non-zero. -/
def searchFeeGo (getPool : Nat → Nat) : List Nat → Option (Nat × Nat)
  | [] => none
  | f :: fs => if getPool f ≠ 0 then some (getPool f, f) else searchFeeGo getPool fs

/-- The pool probe over the priority tiers 10000, 2500, 500, 100. -/
def searchPoolFee (getPool : Nat → Nat) : Option (Nat × Nat) :=
  searchFeeGo getPool pancakeFees

/-- The fee a single-hop helper ends up using: the first discovered tier,
or the caller-supplied default when every tier yields the zero address. -/
def chosenFee (getPool : Nat → Nat) (dfee : Nat) : Nat :=
  match searchPoolFee getPool with
  | some pf => pf.2
  | none => dfee

/-- The router call a trade helper submits, keeping the route data. -/
inductive TradeAction where
  | exactInputSingle (tokenIn tokenOut : String) (fee : Nat)
  | exactInputMulti (tokens : List String) (fees : List Nat)
  | multicallSwapUnwrap (tokenIn tokenOut : String) (fee : Nat)
deriving DecidableEq, Repr

/-- `_native_to_token`: probe the tiers for the output token, fall back to
the caller-supplied fee on exhaustion, and submit a single-hop
wrapped-native → token call; it never raises. -/
def nativeToToken (getPool : Nat → Nat) (wbnb token : String) (fee : Nat) :
    Except String TradeAction :=
  Except.ok (TradeAction.exactInputSingle wbnb token (chosenFee getPool fee))

/-- `_token_to_native`: probe the tiers for the input token, fall back to
the caller-supplied fee on exhaustion, and submit the multicall bundling
the swap to wrapped native with the unwrap; it never raises. -/
def tokenToNative (getPool : Nat → Nat) (token wbnb : String) (fee : Nat) :
    Except String TradeAction :=
  Except.ok (TradeAction.multicallSwapUnwrap token wbnb (chosenFee getPool fee))

/-- `_token_to_token_via_hop`: probe the tiers for each leg against wrapped
native, raising when a leg exhausts every tier, and submit the two-hop
exact-input call on the path [input, wbnb, output]. -/
def tokenToTokenViaHop (getPoolIn getPoolOut : Nat → Nat)
    (input output wbnb : String) : Except String TradeAction :=
  match searchPoolFee getPoolIn with
  | none => Except.error "No pair for input token or not paired with wbnb"
  | some pf1 =>
    match searchPoolFee getPoolOut with
    | none => Except.error "No pair for output token or not paired with wbnb"
    | some pf2 =>
        Except.ok (TradeAction.exactInputMulti [input, wbnb, output] [pf1.2, pf2.2])

/-- `_token_to_token`: hop through wrapped native when neither side is the
wrapped native token, else a direct single-hop call at the caller fee. -/
def tokenToToken (getPoolIn getPoolOut : Nat → Nat)
    (input output wbnb : String) (fee : Nat) : Except String TradeAction :=
  if input ≠ wbnb ∧ output ≠ wbnb then
    tokenToTokenViaHop getPoolIn getPoolOut input output wbnb
  else Except.ok (TradeAction.exactInputSingle input output fee)

/-- `make_trade`: "" denotes the native asset on either side. -/
def makeTrade (getPool : String → Nat → Nat) (wbnb input output : String)
    (fee : Nat) : Except String TradeAction :=
  if input = "" then nativeToToken (getPool output) wbnb output fee
  else if output = "" then tokenToNative (getPool input) input wbnb fee
  else tokenToToken (getPool input) (getPool output) input output wbnb fee

/-- Registry oracle for the C6 witness: token A pools only at tier 500,
token B only at tier 2500. -/
def gpW : String → Nat → Nat := fun t f =>
  if t = "A" then (if f = 500 then 7 else 0)
  else if t = "B" then (if f = 2500 then 9 else 0)
  else 0

/-! ## Theorems: path encoding -/

/-- C1: the code contradicts the spec layout on a path whose first token
equals its last token (reachable via `make_trade(T, T)`): the source's
`token != tokens[-1]` test compares by value, so the first hop's fee is
skipped and the middle hop receives `fees[1]`; the output has 63 bytes
where the spec layout has 66. -/
theorem encodePath_dup_last_token_eval :
    encodePath [addrA, addrB, addrA] [500, 2500] false =
      some (addrA ++ addrB ++ fee3 2500 ++ addrA) ∧
    (addrA ++ addrB ++ fee3 2500 ++ addrA).length = 63 ∧
    specEncodePath [addrA, addrB, addrA] [500, 2500] ≠
      addrA ++ addrB ++ fee3 2500 ++ addrA ∧
    (specEncodePath [addrA, addrB, addrA] [500, 2500]).length = 66 := by
  decide

/-- C7: encoding with `exact_output` yields the same byte string as encoding
the reversed token and fee lists without it. -/
theorem encodePath_exactOutput_reverse (tokens : List (List Nat)) (fees : List Nat) :
    encodePath tokens fees true = encodePath tokens.reverse fees.reverse false := by
  simp [encodePath]

/-- C8: `_encode_path` raises its arity assertion exactly when
`len(fees) != len(tokens) - 1` in Python integer arithmetic. -/
theorem encodePath_arity_iff (tokens : List (List Nat)) (fees : List Nat)
    (exactOutput : Bool) :
    encodePath tokens fees exactOutput = none ↔
      (fees.length : Int) ≠ (tokens.length : Int) - 1 := by
  unfold encodePath
  split <;> simp_all

/-- C10: on an arity-correct call, `exact_output = true` leaves the caller's
two list arguments reversed in place, and `exact_output = false` leaves them
unchanged. -/
theorem encodePathSt_frame (tokens : List (List Nat)) (fees : List Nat)
    (h : (fees.length : Int) = (tokens.length : Int) - 1) :
    (encodePathSt tokens fees true).2 = (tokens.reverse, fees.reverse) ∧
    (encodePathSt tokens fees false).2 = (tokens, fees) := by
  simp [encodePathSt, h]

/-- Witness for C10 at a concrete two-token path. -/
theorem encodePathSt_frame_witness :
    (encodePathSt [addrA, addrB] [500] true).2 = ([addrA, addrB].reverse, [500].reverse) ∧
    (encodePathSt [addrA, addrB] [500] false).2 = ([addrA, addrB], [500]) :=
  encodePathSt_frame [addrA, addrB] [500] (by decide)

/-! ## Theorems: endpoint pool and transaction lifecycle -/

/-- The failover loop picks exactly the first list entry that is distinct
from the current endpoint and probes healthy. -/
theorem tryConnect_eq_find (alive : String → Bool) (current : String)
    (l : List String) :
    tryConnect alive current l = l.find? (fun r => (r != current) && alive r) := by
  induction l with
  | nil => rfl
  | cons r rs ih =>
      by_cases hc : r = current
      · simp [tryConnect, hc, List.find?, ih]
      · have hb : (r != current) = true := by simpa [bne_iff_ne] using hc
        by_cases ha : alive r
        · simp [tryConnect, hc, ha, List.find?, hb]
        · simp [tryConnect, hc, ha, List.find?, ih, hb]

/-- C2: when the current connection probes healthy the switch is a no-op,
and otherwise the first endpoint in priority order that is distinct from the
failing one and probes healthy is installed (state unchanged when none
does). -/
theorem checkAndSwitchRpc_spec (alive : String → Bool) (st : RpcState) :
    (connAlive alive st.w3 = true → checkAndSwitchRpc alive st = st) ∧
    (connAlive alive st.w3 = false →
      checkAndSwitchRpc alive st =
        match st.rpcList.find? (fun r => (r != st.currentRpc) && alive r) with
        | some r => { st with currentRpc := r, w3 := some r }
        | none => st) := by
  constructor
  · intro h
    simp [checkAndSwitchRpc, h]
  · intro h
    simp [checkAndSwitchRpc, h, tryConnect_eq_find]

/-- Witness for C2: with "a" failing, the switch installs "b", the first
healthy non-current endpoint of the pool. -/
theorem checkAndSwitchRpc_spec_witness :
    connAlive aliveOnlyB rpcStW.w3 = false ∧
    checkAndSwitchRpc aliveOnlyB rpcStW =
      match rpcStW.rpcList.find? (fun r => (r != rpcStW.currentRpc) && aliveOnlyB r) with
      | some r => { rpcStW with currentRpc := r, w3 := some r }
      | none => rpcStW :=
  ⟨by decide, (checkAndSwitchRpc_spec aliveOnlyB rpcStW).2 (by decide)⟩

/-- Exhausted pools leave the loop without a candidate. -/
theorem tryConnect_none (alive : String → Bool) (current : String)
    (l : List String) (hall : ∀ r ∈ l, r = current ∨ alive r = false) :
    tryConnect alive current l = none := by
  induction l with
  | nil => rfl
  | cons r rs ih =>
      rcases hall r (by simp) with h | h
      · simpa [tryConnect, h] using ih fun x hx => hall x (by simp [hx])
      · have hne : ¬r = current ∨ r = current := by tauto
        rcases hne with hne | hne
        · simpa [tryConnect, hne, h] using ih fun x hx => hall x (by simp [hx])
        · simpa [tryConnect, hne] using ih fun x hx => hall x (by simp [hx])

/-- C3: when the current connection fails its probe and every other pool
endpoint is down, the submit path stops with the no-endpoint error, the
connection state unchanged, before any transaction is built or broadcast. -/
theorem buildAndSendTx_all_down (alive : String → Bool) (st : RpcState)
    (status0 : Bool) (txBlock : Nat) (ethCall : Nat → Option String)
    (txHash : String)
    (hcur : connAlive alive st.w3 = false)
    (hall : ∀ r ∈ st.rpcList, r = st.currentRpc ∨ alive r = false) :
    buildAndSendTx alive st status0 txBlock ethCall txHash = (SendOutcome.noRpc, st) := by
  have hswitch : checkAndSwitchRpc alive st = st := by
    simp [checkAndSwitchRpc, hcur, tryConnect_none alive st.currentRpc st.rpcList hall]
  simp [buildAndSendTx, hswitch, hcur]

/-- Witness for C3 on the concrete pool [a, b, c] with everything down. -/
theorem buildAndSendTx_all_down_witness :
    connAlive aliveNone rpcStW.w3 = false ∧
    buildAndSendTx aliveNone rpcStW true 5 (fun _ => some "x") "ab" =
      (SendOutcome.noRpc, rpcStW) :=
  ⟨by decide,
    buildAndSendTx_all_down aliveNone rpcStW true 5 (fun _ => some "x") "ab"
      (by decide) (by decide)⟩

/-- Counterexample to C4: on a healthy connection, a transaction whose
receipt status is failure but whose replay at `blockNumber - 1` returns
normally (raises nothing) makes `_build_and_send_tx` fall through and
return `None` — neither a revert result with a reason nor a transaction
hash. -/
theorem buildAndSendTx_silent_failure_cex :
    (buildAndSendTx aliveAll rpcStW true 5 (fun _ => none) "ab").1 =
      SendOutcome.failedSilent ∧
    isRevertWithReason
      ((buildAndSendTx aliveAll rpcStW true 5 (fun _ => none) "ab").1) = false ∧
    (buildAndSendTx aliveAll rpcStW true 5 (fun _ => none) "ab").1 ≠
      SendOutcome.ok ("0x" ++ "ab") := by
  decide

/-- C4 (amended): when the post-switch connection is healthy, a failed
receipt triggers the replay of the call data against `blockNumber - 1` and,
when that replay raises, its exception is propagated as the revert cause;
a successful receipt yields the normalized "0x"-prefixed hash. -/
theorem buildAndSendTx_receipt_amended (alive : String → Bool) (st : RpcState)
    (txBlock : Nat) (ethCall : Nat → Option String) (txHash : String)
    (hcon : connAlive alive (checkAndSwitchRpc alive st).w3 = true) :
    (∀ reason, ethCall (txBlock - 1) = some reason →
      (buildAndSendTx alive st true txBlock ethCall txHash).1 =
        SendOutcome.revertRaised reason) ∧
    (buildAndSendTx alive st false txBlock ethCall txHash).1 =
      SendOutcome.ok ("0x" ++ txHash) := by
  constructor
  · intro reason hr
    simp [buildAndSendTx, hcon, displayCause, hr]
  · simp [buildAndSendTx, hcon]

/-- Witness for C4 (amended) on a healthy pool with a replay that raises. -/
theorem buildAndSendTx_receipt_amended_witness :
    (∀ reason, (fun _ : Nat => some "execution reverted") (5 - 1) = some reason →
      (buildAndSendTx aliveAll rpcStW true 5
        (fun _ => some "execution reverted") "ab").1 =
        SendOutcome.revertRaised reason) ∧
    (buildAndSendTx aliveAll rpcStW false 5
      (fun _ => some "execution reverted") "ab").1 =
      SendOutcome.ok ("0x" ++ "ab") :=
  buildAndSendTx_receipt_amended aliveAll rpcStW 5
    (fun _ => some "execution reverted") "ab" (by decide)

/-! ## Theorems: endpoint pool initialization -/

/-- Counterexample to C9: initializing with the user endpoint
"https://bsc-testnet.drpc.org", which already sits at position 6 of the
selected testnet list, leaves the pool unchanged, so the user endpoint is a
pool member but not at the head. -/
theorem initRpcList_member_not_head_cex :
    "https://bsc-testnet.drpc.org" ∈ initRpcList "https://bsc-testnet.drpc.org" ∧
    (initRpcList "https://bsc-testnet.drpc.org").head? ≠
      some "https://bsc-testnet.drpc.org" := by
  decide

/-- Every selected pool is duplicate-free. -/
theorem selectRpcList_nodup (ep : String) : (selectRpcList ep).Nodup := by
  unfold selectRpcList
  split
  · split
    · decide
    · decide
  · decide

/-- C9 (amended): after initialization the user endpoint occurs in the pool
exactly once, and it sits at the head whenever it was absent from the
selected default list. -/
theorem initRpcList_amended (ep : String) :
    (initRpcList ep).count ep = 1 ∧
    (ep ∉ selectRpcList ep → (initRpcList ep).head? = some ep) := by
  constructor
  · by_cases h : ep ∈ selectRpcList ep
    · simpa [initRpcList, h] using
        List.count_eq_one_of_mem (selectRpcList_nodup ep) h
    · simp [initRpcList, h, List.count_cons_self, List.count_eq_zero_of_not_mem h]
  · intro h
    simp [initRpcList, h]

/-- Witness for C9 (amended): an endpoint matching no known family selects
the empty ETH list, so the pool becomes exactly [that endpoint]. -/
theorem initRpcList_amended_witness :
    ("https://example.org" ∉ selectRpcList "https://example.org") ∧
    (initRpcList "https://example.org").count "https://example.org" = 1 ∧
    (initRpcList "https://example.org").head? = some "https://example.org" :=
  ⟨by decide,
    (initRpcList_amended "https://example.org").1,
    (initRpcList_amended "https://example.org").2 (by decide)⟩

/-! ## Theorems: trade router -/

/-- The probe loop picks the first tier of the list with a non-zero pool. -/
theorem searchFeeGo_eq_find (getPool : Nat → Nat) (l : List Nat) :
    searchFeeGo getPool l =
      (l.find? (fun f => getPool f != 0)).map (fun f => (getPool f, f)) := by
  induction l with
  | nil => rfl
  | cons f fs ih =>
      by_cases h : getPool f = 0
      · have hb : (getPool f != 0) = false := by simp [h]
        simp [searchFeeGo, h, hb, List.find?, ih]
      · have hb : (getPool f != 0) = true := by simpa [bne_iff_ne] using h
        simp [searchFeeGo, h, hb, List.find?]

/-- C5 (amended): the pool probe walks the tiers in the priority order
10000, 2500, 500, 100 and returns the first tier with a non-zero registry
address (tier 500 when pools exist only at 500 and 100); on exhaustion the
two-hop helper raises its no-pair error, while `_native_to_token` proceeds
with the caller-supplied default fee instead of failing. -/
theorem poolSearch_amended (getPool : Nat → Nat) (wbnb tok : String) (dfee : Nat) :
    searchPoolFee getPool =
      (pancakeFees.find? (fun f => getPool f != 0)).map (fun f => (getPool f, f)) ∧
    (getPool 10000 = 0 → getPool 2500 = 0 → getPool 500 ≠ 0 →
      (searchPoolFee getPool).map Prod.snd = some 500) ∧
    ((∀ f ∈ pancakeFees, getPool f = 0) →
      tokenToTokenViaHop getPool getPool tok tok wbnb =
        Except.error "No pair for input token or not paired with wbnb" ∧
      nativeToToken getPool wbnb tok dfee =
        Except.ok (TradeAction.exactInputSingle wbnb tok dfee)) := by
  refine ⟨searchFeeGo_eq_find getPool pancakeFees, ?_, ?_⟩
  · intro h1 h2 h3
    simp [searchPoolFee, searchFeeGo, pancakeFees, h1, h2, h3]
  · intro hall
    have hnone : searchPoolFee getPool = none := by
      rw [searchPoolFee, searchFeeGo_eq_find]
      have : pancakeFees.find? (fun f => getPool f != 0) = none := by
        rw [List.find?_eq_none]
        intro x hx
        simp [hall x hx]
      simp [this]
    constructor
    · simp [tokenToTokenViaHop, hnone]
    · simp [nativeToToken, chosenFee, hnone]

/-- Counterexample to C5: with every tier yielding the zero address,
`_native_to_token` does not fail with any no-pool error — it proceeds with
the caller-supplied default fee 10000. -/
theorem nativeToToken_no_pool_fallback_cex :
    nativeToToken (fun _ => 0) "W" "T" 10000 =
      Except.ok (TradeAction.exactInputSingle "W" "T" 10000) ∧
    (nativeToToken (fun _ => 0) "W" "T" 10000).isOk = true :=
  ⟨rfl, rfl⟩

/-- Witness for C5 (amended) at the everywhere-zero registry. -/
theorem poolSearch_amended_witness :
    (∀ f ∈ pancakeFees, (fun _ : Nat => 0) f = 0) ∧
    (tokenToTokenViaHop (fun _ => 0) (fun _ => 0) "T" "T" "W" =
      Except.error "No pair for input token or not paired with wbnb" ∧
    nativeToToken (fun _ => 0) "W" "T" 10000 =
      Except.ok (TradeAction.exactInputSingle "W" "T" 10000)) :=
  ⟨by decide, (poolSearch_amended (fun _ => 0) "W" "T" 10000).2.2 (by decide)⟩

/-- C6: route resolution is a single direct hop whenever either side is the
native asset ("") or the wrapped native token, and otherwise exactly two
hops [input, wbnb, output] pivoting on the wrapped native token, raising
the error naming the leg whose pool probe exhausted all fee tiers. -/
theorem makeTrade_route (getPool : String → Nat → Nat) (wbnb input output : String)
    (fee : Nat) :
    (input = "" →
      makeTrade getPool wbnb input output fee =
        Except.ok (TradeAction.exactInputSingle wbnb output
          (chosenFee (getPool output) fee))) ∧
    (input ≠ "" → output = "" →
      makeTrade getPool wbnb input output fee =
        Except.ok (TradeAction.multicallSwapUnwrap input wbnb
          (chosenFee (getPool input) fee))) ∧
    (input ≠ "" → output ≠ "" → (input = wbnb ∨ output = wbnb) →
      makeTrade getPool wbnb input output fee =
        Except.ok (TradeAction.exactInputSingle input output fee)) ∧
    (input ≠ "" → output ≠ "" → input ≠ wbnb → output ≠ wbnb →
      (searchPoolFee (getPool input) = none →
        makeTrade getPool wbnb input output fee =
          Except.error "No pair for input token or not paired with wbnb") ∧
      (∀ pf1, searchPoolFee (getPool input) = some pf1 →
        (searchPoolFee (getPool output) = none →
          makeTrade getPool wbnb input output fee =
            Except.error "No pair for output token or not paired with wbnb") ∧
        (∀ pf2, searchPoolFee (getPool output) = some pf2 →
          makeTrade getPool wbnb input output fee =
            Except.ok (TradeAction.exactInputMulti
              [input, wbnb, output] [pf1.2, pf2.2])))) := by
  refine ⟨?_, ?_, ?_, ?_⟩
  · intro h
    simp [makeTrade, h, nativeToToken]
  · intro h1 h2
    simp [makeTrade, h1, h2, tokenToNative]
  · intro h1 h2 h3
    have hcond : ¬(input ≠ wbnb ∧ output ≠ wbnb) := by tauto
    simp [makeTrade, h1, h2, tokenToToken, hcond]
  · intro h1 h2 h3 h4
    refine ⟨?_, ?_⟩
    · intro hs
      simp [makeTrade, h1, h2, tokenToToken, h3, h4, tokenToTokenViaHop, hs]
    · intro pf1 hpf1
      refine ⟨?_, ?_⟩
      · intro hs2
        simp [makeTrade, h1, h2, tokenToToken, h3, h4, tokenToTokenViaHop, hpf1, hs2]
      · intro pf2 hpf2
        simp [makeTrade, h1, h2, tokenToToken, h3, h4, tokenToTokenViaHop, hpf1, hpf2]

/-- Witness for C6: two non-native tokens route as the two-hop path through
the wrapped native token at the discovered tiers. -/
theorem makeTrade_route_witness :
    makeTrade gpW "W" "A" "B" 10000 =
      Except.ok (TradeAction.exactInputMulti ["A", "W", "B"]
        [((7, 500) : Nat × Nat).2, ((9, 2500) : Nat × Nat).2]) :=
  ((((makeTrade_route gpW "W" "A" "B" 10000).2.2.2
      (by decide) (by decide) (by decide) (by decide)).2
    (7, 500) (by decide)).2
    (9, 2500) (by decide))
